import Mathlib

/-!
Shallow embedding of the geodesy core of the Maps_UTM_ED50 application
(src/app/index.tsx): the direction-cone generator and the UTM ED50
tap-to-coordinates handler, together with theorems settling the claims of
the specification.
-/

namespace MapsUtmEd50

/-- A latitude/longitude pair in degrees, as produced and consumed by the
map widget and by the cone generator. -/
structure GeoPoint where
  latitude : ℝ
  longitude : ℝ

/-- Two-argument arctangent with the Math.atan2 convention used by the
source. Signed zeros do not exist on the reals, so the x = 0 column
collapses to three cases. -/
noncomputable def atan2 (y x : ℝ) : ℝ :=
  if 0 < x then Real.arctan (y / x)
  else if x < 0 then
    if 0 ≤ y then Real.arctan (y / x) + Real.pi
    else Real.arctan (y / x) - Real.pi
  else
    if 0 < y then Real.pi / 2
    else if y < 0 then -(Real.pi / 2)
    else 0

/-- Embedding of generateConeCoordinates from src/app/index.tsx: the four
vertices of the direction cone, computed with the spherical
destination-point formula on a sphere of radius 6371000 m; all angles are
converted to radians internally and back to degrees on output. -/
noncomputable def generateConeCoordinates (lat lon heading radiusMeters : ℝ) :
    List GeoPoint :=
  let R : ℝ := 6371000
  let d := radiusMeters / R
  let brng1 := (heading - 30) * Real.pi / 180
  let brng2 := (heading + 30) * Real.pi / 180
  let lat1 := lat * Real.pi / 180
  let lon1 := lon * Real.pi / 180
  let lat2 := Real.arcsin
    (Real.sin lat1 * Real.cos d + Real.cos lat1 * Real.sin d * Real.cos brng1)
  let lon2 := lon1 + atan2 (Real.sin brng1 * Real.sin d * Real.cos lat1)
    (Real.cos d - Real.sin lat1 * Real.sin lat2)
  let lat3 := Real.arcsin
    (Real.sin lat1 * Real.cos d + Real.cos lat1 * Real.sin d * Real.cos brng2)
  let lon3 := lon1 + atan2 (Real.sin brng2 * Real.sin d * Real.cos lat1)
    (Real.cos d - Real.sin lat1 * Real.sin lat3)
  [ { latitude := lat, longitude := lon },
    { latitude := lat2 * 180 / Real.pi, longitude := lon2 * 180 / Real.pi },
    { latitude := lat3 * 180 / Real.pi, longitude := lon3 * 180 / Real.pi },
    { latitude := lat, longitude := lon } ]

/-- Latitude of the spherical destination point, exactly as the
specification states the formula (step worded with lat1, d and brng in
radians). -/
noncomputable def destinationLat (lat1 d brng : ℝ) : ℝ :=
  Real.arcsin
    (Real.sin lat1 * Real.cos d + Real.cos lat1 * Real.sin d * Real.cos brng)

/-- Longitude of the spherical destination point, exactly as the
specification states the formula. -/
noncomputable def destinationLon (lon1 lat1 d brng : ℝ) : ℝ :=
  lon1 + atan2 (Real.sin brng * Real.sin d * Real.cos lat1)
    (Real.cos d - Real.sin lat1 * Real.sin (destinationLat lat1 d brng))

/-- Zone computation of handleMapPress, step A:
Math.floor((longitude + 180) / 6) + 1. -/
def fuso (longitude : ℚ) : ℤ :=
  ⌊(longitude + 180) / 6⌋ + 1

/-- Hemisphere test of handleMapPress, step B: latitude < 0. -/
def isSouth (latitude : ℚ) : Bool :=
  decide (latitude < 0)

/-- Fragment appended to the projection string for the southern
hemisphere. -/
def stringaEmisfero (latitude : ℚ) : String :=
  if isSouth latitude then " +south" else ""

/-- Projection definition string built by handleMapPress, step C, with the
exact segmentation of the source template literal. -/
def proj4String (latitude longitude : ℚ) : String :=
  "+proj=utm +zone=" ++ toString (fuso longitude) ++ stringaEmisfero latitude
    ++ " +ellps=intl +towgs84=-87,-98,-121,0,0,0,0 +units=m +no_defs"

/-- Models the Number.toFixed(2) display rounding of the source as exact
decimal rounding to two places over the rationals. -/
def toFixed2 (x : ℚ) : ℚ :=
  ((round (x * 100) : ℤ) : ℚ) / 100

/-- The record handleMapPress stores for the tapped point. The source
keeps est and nord as the toFixed(2) strings; here they are the rounded
values themselves. -/
structure ClickedPoint where
  lat : ℚ
  lon : ℚ
  est : ℚ
  nord : ℚ
  fuso : ℤ
  emisfero : String

/-- Math core of handleMapPress from src/app/index.tsx. The forward
transform is the external npm proj4 library, not code of this repository,
so it enters as the parameter pj, applied exactly as the source applies
proj4 to the source CRS name, the definition string and the lon/lat
pair. -/
def handleMapPress (pj : String → String → ℚ × ℚ → ℚ × ℚ)
    (latitude longitude : ℚ) : ClickedPoint :=
  let xy := pj "WGS84" (proj4String latitude longitude) (longitude, latitude)
  { lat := latitude
    lon := longitude
    est := toFixed2 xy.1
    nord := toFixed2 xy.2
    fuso := fuso longitude
    emisfero := if isSouth latitude then "S" else "N" }

/-- Explicit projection parameters, the configuration-object form the
specification gives for step 3 of the converter. -/
structure ProjDef where
  proj : String
  zone : ℤ
  south : Bool
  ellps : String
  towgs84 : List ℤ
  units : String

/-- Renders a ProjDef record to a proj4 definition string. -/
def renderProjDef (p : ProjDef) : String :=
  "+proj=" ++ p.proj ++ " +zone=" ++ toString p.zone
    ++ (if p.south then " +south" else "")
    ++ " +ellps=" ++ p.ellps
    ++ " +towgs84=" ++ String.intercalate "," (p.towgs84.map toString)
    ++ " +units=" ++ p.units ++ " +no_defs"

/-- Trivial stand-in for the external projection library, used only to
instantiate the pj parameter at concrete inputs. -/
def projStub : String → String → ℚ × ℚ → ℚ × ℚ :=
  fun _ _ xy => xy

/-- C5: the cone generator returns exactly 4 points, and the first and the
fourth are the center, with the same latitude and longitude that were
passed in. -/
theorem cone_closed_ring (lat lon heading r : ℝ) :
    (generateConeCoordinates lat lon heading r).length = 4 ∧
    (generateConeCoordinates lat lon heading r)[0]? =
      some { latitude := lat, longitude := lon } ∧
    (generateConeCoordinates lat lon heading r)[3]? =
      some { latitude := lat, longitude := lon } :=
  ⟨rfl, rfl, rfl⟩

/-- C4: the stored hemisphere is S exactly when the latitude is strictly
negative and N otherwise; latitude 0 gives N, and the two sample points of
the specification give S and N. -/
theorem hemisphere_rule :
    (∀ (pj : String → String → ℚ × ℚ → ℚ × ℚ) (lat lon : ℚ),
        ((handleMapPress pj lat lon).emisfero = "S" ↔ lat < 0) ∧
        ((handleMapPress pj lat lon).emisfero = "N" ↔ 0 ≤ lat)) ∧
    (handleMapPress projStub (-1) 0).emisfero = "S" ∧
    (handleMapPress projStub 1 0).emisfero = "N" ∧
    (handleMapPress projStub 0 0).emisfero = "N" := by
  refine ⟨fun pj lat lon => ?_, by decide, by decide, by decide⟩
  unfold handleMapPress isSouth
  by_cases h : lat < 0 <;> simp [h, not_lt.mp]

/-- C2: the projection definition built by handleMapPress carries exactly
the parameters of a ProjDef record with UTM projection, the computed zone,
the south flag set exactly when the hemisphere is S, the International
1924 ellipsoid, the 7-parameter shift (-87, -98, -121, 0, 0, 0, 0) to
WGS84, and meters as linear units. -/
theorem proj4String_parameters
    (pj : String → String → ℚ × ℚ → ℚ × ℚ) (lat lon : ℚ) :
    proj4String lat lon =
      renderProjDef
        { proj := "utm", zone := fuso lon, south := isSouth lat,
          ellps := "intl", towgs84 := [-87, -98, -121, 0, 0, 0, 0],
          units := "m" } ∧
    (isSouth lat = true ↔ (handleMapPress pj lat lon).emisfero = "S") := by
  constructor
  · unfold proj4String renderProjDef stringaEmisfero
    cases isSouth lat <;> simp [String.append_assoc] <;> congr 1
  · unfold handleMapPress
    cases h : isSouth lat <;> simp [h]

/-- Shared rounding fact: toFixed2 lands on an integer number of
hundredths and moves the value by at most half a hundredth. -/
theorem toFixed2_spec (x : ℚ) :
    (∃ n : ℤ, toFixed2 x = (n : ℚ) / 100) ∧ |toFixed2 x - x| ≤ 1 / 200 := by
  refine ⟨⟨round (x * 100), rfl⟩, ?_⟩
  have h := abs_sub_round (x * 100)
  rw [abs_sub_comm] at h
  have e : toFixed2 x - x = (((round (x * 100) : ℤ) : ℚ) - x * 100) / 100 := by
    unfold toFixed2; ring
  calc |toFixed2 x - x|
      = |((round (x * 100) : ℤ) : ℚ) - x * 100| / 100 := by
        rw [e, abs_div]; norm_num
    _ ≤ (1 / 2) / 100 := by
        exact (div_le_div_iff_of_pos_right (by norm_num)).mpr h
    _ = 1 / 200 := by norm_num

/-- C7: the stored est and nord are the projected x and y rounded to
exactly two decimal places: each is an integer number of hundredths and
differs from the exact projected value by at most half a hundredth. -/
theorem est_nord_rounded (pj : String → String → ℚ × ℚ → ℚ × ℚ)
    (lat lon : ℚ) :
    (∃ n : ℤ, (handleMapPress pj lat lon).est = (n : ℚ) / 100) ∧
    |(handleMapPress pj lat lon).est -
      (pj "WGS84" (proj4String lat lon) (lon, lat)).1| ≤ 1 / 200 ∧
    (∃ n : ℤ, (handleMapPress pj lat lon).nord = (n : ℚ) / 100) ∧
    |(handleMapPress pj lat lon).nord -
      (pj "WGS84" (proj4String lat lon) (lon, lat)).2| ≤ 1 / 200 :=
  ⟨(toFixed2_spec _).1, (toFixed2_spec _).2,
   (toFixed2_spec _).1, (toFixed2_spec _).2⟩

/-- C9: both embedded cores are functions of their arguments alone: two
calls with identical arguments return identical results. In the source,
generateConeCoordinates reads only its parameters and local constants, and
the conversion steps of handleMapPress read only the tapped coordinate,
so the embedding as pure functions is faithful. -/
theorem core_deterministic :
    (∀ lat lon heading r lat' lon' heading' r' : ℝ,
        lat = lat' → lon = lon' → heading = heading' → r = r' →
        generateConeCoordinates lat lon heading r =
          generateConeCoordinates lat' lon' heading' r') ∧
    (∀ (pj pj' : String → String → ℚ × ℚ → ℚ × ℚ) (lat lon lat' lon' : ℚ),
        pj = pj' → lat = lat' → lon = lon' →
        handleMapPress pj lat lon = handleMapPress pj' lat' lon') := by
  constructor
  · intro lat lon heading r lat' lon' heading' r' h1 h2 h3 h4
    rw [h1, h2, h3, h4]
  · intro pj pj' lat lon lat' lon' h1 h2 h3
    rw [h1, h2, h3]

/-- Witness for core_deterministic at concrete arguments. -/
theorem core_deterministic_witness :
    ((1 : ℝ) = 1) ∧
    generateConeCoordinates 1 2 3 4 = generateConeCoordinates 1 2 3 4 ∧
    handleMapPress projStub 5 6 = handleMapPress projStub 5 6 :=
  ⟨rfl,
   core_deterministic.1 1 2 3 4 1 2 3 4 rfl rfl rfl rfl,
   core_deterministic.2 projStub projStub 5 6 5 6 rfl rfl rfl⟩

/-- C1, failing boundary: at longitude 180 the code computes zone 61,
outside the 1..60 range promised by the specification and by the source
comment, which asks for zone 60 there. -/
theorem fuso_at_180 :
    fuso 180 = 61 ∧ (handleMapPress projStub 0 180).fuso = 61 := by
  constructor <;> norm_num [handleMapPress, fuso]

/-- Closed form of the cone generator: its four vertices expressed through
the destination-point formula of the specification. -/
theorem generateCone_eq (lat lon heading r : ℝ) :
    generateConeCoordinates lat lon heading r =
      [ { latitude := lat, longitude := lon },
        { latitude := destinationLat (lat * Real.pi / 180) (r / 6371000)
            ((heading - 30) * Real.pi / 180) * 180 / Real.pi,
          longitude := destinationLon (lon * Real.pi / 180)
            (lat * Real.pi / 180) (r / 6371000)
            ((heading - 30) * Real.pi / 180) * 180 / Real.pi },
        { latitude := destinationLat (lat * Real.pi / 180) (r / 6371000)
            ((heading + 30) * Real.pi / 180) * 180 / Real.pi,
          longitude := destinationLon (lon * Real.pi / 180)
            (lat * Real.pi / 180) (r / 6371000)
            ((heading + 30) * Real.pi / 180) * 180 / Real.pi },
        { latitude := lat, longitude := lon } ] := rfl

/-- C3: the two non-center vertices are exactly the spherical
destination points at bearings heading - 30 and heading + 30 degrees, with
angular distance r / 6371000 and all degree inputs converted to radians
and the results back to degrees. -/
theorem cone_vertices_formula (lat lon heading r : ℝ)
    (h1 : -90 ≤ lat) (h2 : lat ≤ 90) :
    (generateConeCoordinates lat lon heading r)[1]? =
      some { latitude := destinationLat (lat * Real.pi / 180) (r / 6371000)
               ((heading - 30) * Real.pi / 180) * 180 / Real.pi,
             longitude := destinationLon (lon * Real.pi / 180)
               (lat * Real.pi / 180) (r / 6371000)
               ((heading - 30) * Real.pi / 180) * 180 / Real.pi } ∧
    (generateConeCoordinates lat lon heading r)[2]? =
      some { latitude := destinationLat (lat * Real.pi / 180) (r / 6371000)
               ((heading + 30) * Real.pi / 180) * 180 / Real.pi,
             longitude := destinationLon (lon * Real.pi / 180)
               (lat * Real.pi / 180) (r / 6371000)
               ((heading + 30) * Real.pi / 180) * 180 / Real.pi } :=
  ⟨rfl, rfl⟩

/-- Witness for cone_vertices_formula at a concrete input. -/
theorem cone_vertices_formula_witness :
    (-90 ≤ (0 : ℝ)) ∧ ((0 : ℝ) ≤ 90) ∧
    ((generateConeCoordinates 0 10 45 100)[1]? =
      some { latitude := destinationLat ((0 : ℝ) * Real.pi / 180)
               (100 / 6371000) ((45 - 30) * Real.pi / 180) * 180 / Real.pi,
             longitude := destinationLon ((10 : ℝ) * Real.pi / 180)
               (0 * Real.pi / 180) (100 / 6371000)
               ((45 - 30) * Real.pi / 180) * 180 / Real.pi } ∧
    (generateConeCoordinates 0 10 45 100)[2]? =
      some { latitude := destinationLat ((0 : ℝ) * Real.pi / 180)
               (100 / 6371000) ((45 + 30) * Real.pi / 180) * 180 / Real.pi,
             longitude := destinationLon ((10 : ℝ) * Real.pi / 180)
               (0 * Real.pi / 180) (100 / 6371000)
               ((45 + 30) * Real.pi / 180) * 180 / Real.pi }) :=
  ⟨by norm_num, by norm_num,
    cone_vertices_formula 0 10 45 100 (by norm_num) (by norm_num)⟩

/-- Shifting the bearing by a full turn does not change the destination
latitude. -/
theorem destinationLat_add_two_pi (lat1 d b : ℝ) :
    destinationLat lat1 d (b + 2 * Real.pi) = destinationLat lat1 d b := by
  unfold destinationLat
  rw [Real.cos_add_two_pi]

/-- Shifting the bearing by a full turn does not change the destination
longitude. -/
theorem destinationLon_add_two_pi (lon1 lat1 d b : ℝ) :
    destinationLon lon1 lat1 d (b + 2 * Real.pi) =
      destinationLon lon1 lat1 d b := by
  unfold destinationLon
  rw [Real.sin_add_two_pi, destinationLat_add_two_pi]

/-- C8: the cone generator is periodic in the heading with period 360
degrees, with no special-casing of the wrap-around; over the reals the two
outputs are equal exactly. -/
theorem cone_periodic_heading (lat lon heading r : ℝ) :
    generateConeCoordinates lat lon (heading + 360) r =
      generateConeCoordinates lat lon heading r := by
  rw [generateCone_eq, generateCone_eq]
  have e1 : (heading + 360 - 30) * Real.pi / 180 =
      (heading - 30) * Real.pi / 180 + 2 * Real.pi := by ring
  have e2 : (heading + 360 + 30) * Real.pi / 180 =
      (heading + 30) * Real.pi / 180 + 2 * Real.pi := by ring
  rw [e1, e2, destinationLat_add_two_pi, destinationLat_add_two_pi,
    destinationLon_add_two_pi, destinationLon_add_two_pi]

/-- The degree-converted destination latitude always lies in the interval
from -90 to 90, because arcsin has range from -pi/2 to pi/2. -/
theorem destinationLat_deg_bounds (a d b : ℝ) :
    -90 ≤ destinationLat a d b * 180 / Real.pi ∧
      destinationLat a d b * 180 / Real.pi ≤ 90 := by
  unfold destinationLat
  have hpi := Real.pi_pos
  have hl := Real.neg_pi_div_two_le_arcsin
    (Real.sin a * Real.cos d + Real.cos a * Real.sin d * Real.cos b)
  have hu := Real.arcsin_le_pi_div_two
    (Real.sin a * Real.cos d + Real.cos a * Real.sin d * Real.cos b)
  constructor
  · rw [le_div_iff₀ hpi]
    nlinarith
  · rw [div_le_iff₀ hpi]
    nlinarith

/-- C10: the cone generator keeps every returned latitude between -90 and
90 whenever the center latitude is in range, but it never normalizes the
returned longitudes: at center latitude 0 and longitude 180, heading 90
and radius 100 m, a returned vertex has longitude strictly greater
than 180, outside the GeoPoint longitude invariant. -/
theorem cone_lat_bounded_lon_overflow (lat lon heading r : ℝ)
    (h1 : -90 ≤ lat) (h2 : lat ≤ 90) :
    (∀ p ∈ generateConeCoordinates lat lon heading r,
        -90 ≤ p.latitude ∧ p.latitude ≤ 90) ∧
    (∃ p ∈ generateConeCoordinates 0 180 90 100, 180 < p.longitude) := by
  constructor
  · rw [generateCone_eq]
    intro p hp
    simp only [List.mem_cons, List.not_mem_nil, or_false] at hp
    rcases hp with h | h | h | h <;> subst h
    · exact ⟨h1, h2⟩
    · exact destinationLat_deg_bounds _ _ _
    · exact destinationLat_deg_bounds _ _ _
    · exact ⟨h1, h2⟩
  · rw [generateCone_eq]
    refine ⟨{ latitude := destinationLat ((0 : ℝ) * Real.pi / 180)
                (100 / 6371000) ((90 - 30) * Real.pi / 180) * 180 / Real.pi,
              longitude := destinationLon ((180 : ℝ) * Real.pi / 180)
                (0 * Real.pi / 180) (100 / 6371000)
                ((90 - 30) * Real.pi / 180) * 180 / Real.pi },
            by simp, ?_⟩
    have hpi := Real.pi_pos
    have hpi3 := Real.pi_gt_three
    have hb : ((90 : ℝ) - 30) * Real.pi / 180 = Real.pi / 3 := by ring
    have hlat0 : ((0 : ℝ)) * Real.pi / 180 = 0 := by ring
    have hlon0 : ((180 : ℝ)) * Real.pi / 180 = Real.pi := by ring
    have hd0 : (0 : ℝ) < 100 / 6371000 := by norm_num
    have hdsmall : (100 : ℝ) / 6371000 < 3 / 2 := by norm_num
    have hsind : 0 < Real.sin (100 / 6371000) :=
      Real.sin_pos_of_pos_of_lt_pi hd0 (by linarith)
    have hcosd : 0 < Real.cos (100 / 6371000) :=
      Real.cos_pos_of_mem_Ioo ⟨by linarith, by linarith⟩
    have hy : 0 < Real.sin (Real.pi / 3) * Real.sin (100 / 6371000) := by
      have h3 : 0 < Real.sin (Real.pi / 3) := by
        rw [Real.sin_pi_div_three]; positivity
      exact mul_pos h3 hsind
    have hatan : 0 < atan2
        (Real.sin (Real.pi / 3) * Real.sin (100 / 6371000))
        (Real.cos (100 / 6371000)) := by
      unfold atan2
      rw [if_pos hcosd]
      have hmono := Real.arctan_strictMono (div_pos hy hcosd)
      rwa [Real.arctan_zero] at hmono
    rw [hb, hlat0, hlon0]
    unfold destinationLon
    rw [Real.sin_zero, Real.cos_zero, mul_one, zero_mul, sub_zero]
    set t := atan2 (Real.sin (Real.pi / 3) * Real.sin (100 / 6371000))
      (Real.cos (100 / 6371000)) with ht
    have key : (Real.pi + t) * 180 / Real.pi =
        180 + t * 180 / Real.pi := by
      field_simp
      ring
    rw [key]
    have hpos : 0 < t * 180 / Real.pi :=
      div_pos (mul_pos hatan (by norm_num)) hpi
    linarith

/-- Witness for cone_lat_bounded_lon_overflow at a concrete center. -/
theorem cone_lat_bounded_lon_overflow_witness :
    (-90 ≤ (0 : ℝ)) ∧ ((0 : ℝ) ≤ 90) ∧
    ((∀ p ∈ generateConeCoordinates 0 0 0 0,
        -90 ≤ p.latitude ∧ p.latitude ≤ 90) ∧
     (∃ p ∈ generateConeCoordinates 0 180 90 100, 180 < p.longitude)) :=
  ⟨by norm_num, by norm_num,
    cone_lat_bounded_lon_overflow 0 0 0 0 (by norm_num) (by norm_num)⟩

end MapsUtmEd50
